import Mathlib

/-!
Formal model of `src/server/app.py`, a Telegram-integrated storefront:
SQLite-backed product catalog, order intake from a chat web view, admin
HTTP API and operator notification.  Python dictionaries are modelled as
structures with `Option` fields (a `none` field is an absent key), SQLite
tables as lists of row structures, exceptions as `Except`, and the SQLite
transaction of an open connection as an `Except` computation whose error
path discards the tentative state (a connection closed without `commit`
rolls its writes back).  Python string primitives used by the code
(`strip`, `lstrip`, `startswith`, `isdigit`, `lower`, `int`, `str`) are
re-implemented over `List Char` so that all definitions evaluate by
`decide`.
-/

/-! ## Python string primitives -/

/-- Drop leading characters satisfying `p` (helper for `strip`/`lstrip`). -/
def listDropWhile (p : Char → Bool) : List Char → List Char
  | [] => []
  | c :: cs => if p c then listDropWhile p cs else c :: cs

/-- Python `s.lstrip(d)`: remove every leading occurrence of `d`. -/
def pyLStrip (s : String) (drop : Char) : String :=
  String.mk (listDropWhile (fun c => c == drop) s.toList)

/-- Python `s.strip()`: remove leading and trailing whitespace. -/
def pyStrip (s : String) : String :=
  String.mk ((listDropWhile Char.isWhitespace
    (listDropWhile Char.isWhitespace s.toList).reverse).reverse)

/-- Boolean list-prefix test (helper for `startswith`). -/
def listIsPre : List Char → List Char → Bool
  | [], _ => true
  | _ :: _, [] => false
  | a :: as, b :: bs => a == b && listIsPre as bs

/-- Python `s.startswith(pre)`. -/
def pyStartswith (s pre : String) : Bool := listIsPre pre.toList s.toList

/-- Python `s.isdigit()` restricted to ASCII digits (chat ids are ASCII). -/
def pyIsDigit (s : String) : Bool := s.toList.all Char.isDigit && !(s.toList.isEmpty)

/-- Python `s.lower()` (ASCII case folding suffices for file extensions). -/
def pyLower (s : String) : String := String.mk (s.toList.map Char.toLower)

/-- Python `str(n)` for a natural number. -/
def natToStr (n : Nat) : String := String.mk (Nat.toDigits 10 n)

/-- Python `str(i)` for an integer. -/
def intToStr (i : Int) : String :=
  if i < 0 then "-" ++ natToStr i.natAbs else natToStr i.natAbs

/-- Accumulator loop of decimal parsing (helper for `int(s)`). -/
def strToNatAux : List Char → Nat → Nat
  | [], acc => acc
  | c :: cs, acc => strToNatAux cs (acc * 10 + (c.toNat - 48))

/-- Python `int(s)` on an all-digit string. -/
def pyInt (s : String) : Nat := strToNatAux s.toList 0

/-! ## Data model: the `products` table (CREATE_SQL, lines 45-57) -/

/-- A row of the `products` table. -/
structure Product where
  id : Nat
  sku : String
  title : String
  description : String
  price : Int
  currency : String
  image_url : String
  category : String
  is_active : Int
  availability : String
  created_at : Int
deriving DecidableEq

/-- The nine keys serialized by `list_products`
(`sku,title,description,price,currency,image_url,category,is_active,availability`);
this structure has exactly those fields and no others. -/
structure CatalogEntry where
  sku : String
  title : String
  description : String
  price : Int
  currency : String
  image_url : String
  category : String
  is_active : Int
  availability : String
deriving DecidableEq

/-- The `dict(zip(keys, r))` serialization of one product row. -/
def productEntry (p : Product) : CatalogEntry :=
  ⟨p.sku, p.title, p.description, p.price, p.currency, p.image_url,
   p.category, p.is_active, p.availability⟩

/-- `list_products`: `SELECT <nine columns> FROM products ORDER BY created_at DESC`.
The SQL ordering is modelled by a stable merge sort on `created_at` descending. -/
def list_products (products : List Product) : List CatalogEntry :=
  (products.mergeSort (fun a b => a.created_at ≥ b.created_at)).map productEntry

/-! ## `upsert_product` (lines 117-157) -/

/-- The JSON body of an admin catalog upsert; `none` models an absent key. -/
structure UpsertData where
  sku : Option String
  title : Option String
  description : Option String
  price : Option Int
  currency : Option String
  image_url : Option String
  category : Option String
  is_active : Option String
  availability : Option String
deriving DecidableEq

/-- The first missing required field, in the order of the `required` list
`["sku","title","price","category","availability","is_active"]`. -/
def missingField (d : UpsertData) : Option String :=
  if d.sku = none then some "sku"
  else if d.title = none then some "title"
  else if d.price = none then some "price"
  else if d.category = none then some "category"
  else if d.availability = none then some "availability"
  else if d.is_active = none then some "is_active"
  else none

/-- `1 if str(data.get("is_active","1")) in ("1","true","True") else 0`. -/
def parseIsActive (d : UpsertData) : Int :=
  let s := d.is_active.getD "1"
  if s = "1" ∨ s = "true" ∨ s = "True" then 1 else 0

/-- `data.get("currency","UAH") or "UAH"` (Python `or` replaces `""`). -/
def currencyOf (d : UpsertData) : String :=
  let c := d.currency.getD "UAH"
  if c = "" then "UAH" else c

/-- Effect of the `UPDATE products SET ...` statement on a matching row:
every column except `id`, `sku`, `created_at` is overwritten from the input. -/
def updatedProduct (d : UpsertData) (p : Product) : Product :=
  { p with
    title := d.title.getD "", description := d.description.getD "",
    price := d.price.getD 0, currency := currencyOf d,
    image_url := d.image_url.getD "", category := d.category.getD "devices",
    is_active := parseIsActive d, availability := d.availability.getD "in_stock" }

/-- The row built by the `INSERT INTO products ...` branch. -/
def insertedProduct (d : UpsertData) (now : Int) (newId : Nat) : Product :=
  { id := newId, sku := d.sku.getD "", title := d.title.getD "",
    description := d.description.getD "", price := d.price.getD 0,
    currency := currencyOf d, image_url := d.image_url.getD "",
    category := d.category.getD "devices", is_active := parseIsActive d,
    availability := d.availability.getD "in_stock", created_at := now }

/-- `upsert_product`: raise `HTTPBadRequest` on a missing required field;
otherwise `UPDATE` every row whose `sku` matches (`SELECT id ... WHERE sku=?`
found a row) or `INSERT` a fresh row (`newId` models the autoincrement id,
`now` models `int(time.time())`). -/
def upsert_product (d : UpsertData) (products : List Product) (now : Int)
    (newId : Nat) : Except String (List Product) :=
  match missingField d with
  | some k => .error ("Missing field: " ++ k)
  | none =>
    match products.find? (fun p => p.sku == d.sku.getD "") with
    | some _ =>
        .ok (products.map (fun p =>
          if p.sku == d.sku.getD "" then updatedProduct d p else p))
    | none => .ok (products ++ [insertedProduct d now newId])

/-- `delete_product`: `DELETE FROM products WHERE sku=?`. -/
def delete_product (sku : String) (products : List Product) : List Product :=
  products.filter (fun p => !(p.sku == sku))

/-! ## Data model: `orders` and `order_items` (CREATE_SQL, lines 59-82) -/

/-- A row of the `orders` table. -/
structure OrderRow where
  id : Nat
  tg_user_id : Int
  tg_username : Option String
  tg_name : String
  total : Int
  currency : String
  city : String
  branch : String
  receiver : String
  phone : String
  status : String
  created_at : Int
deriving DecidableEq

/-- A row of the `order_items` table. -/
structure OrderItem where
  id : Nat
  order_id : Nat
  product_sku : String
  product_title : String
  price : Int
  qty : Int
deriving DecidableEq

/-- The two order tables plus the autoincrement counters of their
integer primary keys. -/
structure OrdersDb where
  orders : List OrderRow
  order_items : List OrderItem
  nextOrderId : Nat
  nextItemId : Nat
deriving DecidableEq

/-- The attributes of `m.from_user` (or of the `FakeUser` substitute) read
by `save_order`; `username = some ""` models a falsy empty string. -/
structure UserInfo where
  id : Int
  username : Option String
  first_name : Option String
  last_name : Option String
deriving DecidableEq

/-- `f"@{user.username}" if getattr(user,"username",None) else None`. -/
def storedUsername (u : UserInfo) : Option String :=
  match u.username with
  | some s => if s = "" then none else some ("@" ++ s)
  | none => none

/-- `f"{(user.first_name or '')} {(user.last_name or '')}".strip()`. -/
def storedName (u : UserInfo) : String :=
  pyStrip ((u.first_name.getD "") ++ " " ++ (u.last_name.getD ""))

/-- The row built by the `INSERT INTO orders ...` statement of `save_order`. -/
def orderRowOf (oid : Nat) (user : UserInfo) (total : Int)
    (currency city branch receiver phone : String) (now : Int) : OrderRow :=
  { id := oid, tg_user_id := user.id, tg_username := storedUsername user,
    tg_name := storedName user, total := total, currency := currency,
    city := city, branch := branch, receiver := receiver, phone := phone,
    status := "new", created_at := now }

/-- The `for sku, title, price, qty in items` insert loop of `save_order`.
`failAt = some k` injects a failure into the `k`-th SQL insert of the
transaction (the order insert is step `0`, the `i`-th item insert is step
`i + 1`); the error aborts the transaction before `commit`. -/
def insertItems (db : OrdersDb) (oid step : Nat) (failAt : Option Nat) :
    List (String × String × Int × Int) → Except Unit OrdersDb
  | [] => .ok db
  | (sku, title, price, qty) :: rest =>
    if failAt = some step then .error ()
    else insertItems
      { db with
        order_items := db.order_items ++
          [{ id := db.nextItemId, order_id := oid, product_sku := sku,
             product_title := title, price := price, qty := qty }],
        nextItemId := db.nextItemId + 1 } oid (step + 1) failAt rest

/-- `save_order`: one connection inserts the order row, then every item
row, then commits.  The error path of the transaction returns the
original database: a connection closed without `commit` rolls back.
On success the new order id (`cur.lastrowid`) is returned. -/
def save_order (db : OrdersDb) (user : UserInfo)
    (items : List (String × String × Int × Int)) (total : Int)
    (currency city branch receiver phone : String) (now : Int)
    (failAt : Option Nat) : OrdersDb × Option Nat :=
  let txn : Except Unit (OrdersDb × Nat) :=
    if failAt = some 0 then .error ()
    else
      let oid := db.nextOrderId
      let row := orderRowOf oid user total currency city branch receiver phone now
      match insertItems
          { db with orders := db.orders ++ [row], nextOrderId := oid + 1 }
          oid 1 failAt items with
      | .ok db2 => .ok (db2, oid)
      | .error e => .error e
  match txn with
  | .ok (db2, oid) => (db2, some oid)
  | .error _ => (db, none)

/-- The keys serialized by `list_orders` and `get_order` (all `orders`
columns except `tg_user_id`). -/
structure OrderSummary where
  id : Nat
  tg_username : Option String
  tg_name : String
  total : Int
  currency : String
  city : String
  branch : String
  receiver : String
  phone : String
  status : String
  created_at : Int
deriving DecidableEq

/-- Serialization of one order row. -/
def orderSummary (r : OrderRow) : OrderSummary :=
  ⟨r.id, r.tg_username, r.tg_name, r.total, r.currency, r.city, r.branch,
   r.receiver, r.phone, r.status, r.created_at⟩

/-- `list_orders`: `SELECT ... FROM orders ORDER BY id DESC LIMIT ?`. -/
def list_orders (db : OrdersDb) (limit : Nat) : List OrderSummary :=
  ((db.orders.mergeSort (fun a b => a.id ≥ b.id)).take limit).map orderSummary

/-- An order together with its serialized items, as returned by `get_order`. -/
structure OrderDetail where
  order : OrderSummary
  items : List (String × String × Int × Int)
deriving DecidableEq

/-- `get_order`: fetch the order row by id (404 when absent) and its items. -/
def get_order (db : OrdersDb) (order_id : Nat) : Except String OrderDetail :=
  match db.orders.find? (fun r => r.id == order_id) with
  | none => .error "Order not found"
  | some r =>
    .ok ⟨orderSummary r,
      (db.order_items.filter (fun i => i.order_id == order_id)).map
        (fun i => (i.product_sku, i.product_title, i.price, i.qty))⟩

/-- The status whitelist of `set_order_status`. -/
def VALID_ORDER_STATUSES : List String :=
  ["new", "processing", "shipped", "done", "canceled"]

/-- `set_order_status`: raise `HTTPBadRequest` (second component `some msg`)
on a status outside the whitelist, leaving the tables untouched; otherwise
`UPDATE orders SET status=? WHERE id=?`. -/
def set_order_status (db : OrdersDb) (order_id : Nat) (status : String) :
    OrdersDb × Option String :=
  if status ∈ VALID_ORDER_STATUSES then
    ({ db with orders := db.orders.map (fun r =>
        if r.id = order_id then { r with status := status } else r) }, none)
  else (db, some "bad status")

/-! ## Admin auth, upload, HTTP dispatch (lines 222-311, 437-464) -/

/-- Errors raised by HTTP handlers (aiohttp `HTTPException` subclasses). -/
inductive HttpError where
  | unauthorized (msg : String)
  | badRequest (msg : String)
  | notFound (msg : String)
deriving DecidableEq

/-- `require_admin`: read `X-Admin-Secret`, strip it, and raise
`HTTPUnauthorized` unless `ADMIN_SECRET` is non-empty and matched. -/
def require_admin (ADMIN_SECRET : String) (x_admin_secret : Option String) :
    Except HttpError Unit :=
  let token := pyStrip (x_admin_secret.getD "")
  if ADMIN_SECRET = "" ∨ ¬ token = ADMIN_SECRET then
    .error (.unauthorized "X-Admin-Secret required / mismatch")
  else .ok ()

/-- `os.path.splitext(name)[1]` for a plain file name: the suffix from the
last dot, unless every character before that dot is itself a dot. -/
def splitextExt (name : String) : String :=
  let cs := name.toList
  match (List.range cs.length).filter (fun i => cs.getD i ' ' == '.') |>.getLast? with
  | none => ""
  | some i => if (cs.take i).all (fun x => x == '.') then "" else String.mk (cs.drop i)

/-- `field.filename or f"u_{secrets.token_hex(4)}"` (Python `or` also
replaces an empty filename). -/
def uploadName (filename : Option String) (tokenHex4 : String) : String :=
  match filename with
  | some f => if f = "" then "u_" ++ tokenHex4 else f
  | none => "u_" ++ tokenHex4

/-- The lower-cased extension of the effective upload filename. -/
def uploadExt (filename : Option String) (tokenHex4 : String) : String :=
  pyLower (splitextExt (uploadName filename tokenHex4))

/-- `f"{int(time.time())}_{secrets.token_hex(3)}{ext or '.jpg'}"`. -/
def uploadSafeName (filename : Option String) (now : Int)
    (tokenHex4 tokenHex3 : String) : String :=
  intToStr now ++ "_" ++ tokenHex3 ++
    (if uploadExt filename tokenHex4 = "" then ".jpg" else uploadExt filename tokenHex4)

/-- `api_admin_upload` after the auth check: reject a missing/misnamed
multipart field and `.heic/.heif` uploads, then stream the chunks verbatim
into `UPLOAD_DIR` under `uploadSafeName` and answer its URL.
`tokenHex4`/`tokenHex3` model the two `secrets.token_hex` draws.  The
second component of the result is the exact byte content written to disk:
the concatenation of the uploaded chunks, with no decoding, cropping or
resizing of any kind. -/
def api_admin_upload (hasFile : Bool) (fieldName : String)
    (filename : Option String) (chunks : List (List Nat)) (now : Int)
    (tokenHex4 tokenHex3 : String) : Except HttpError (String × List Nat) :=
  if ¬ hasFile ∨ ¬ fieldName = "file" then .error (.badRequest "no file")
  else
    let ext := uploadExt filename tokenHex4
    if ext = ".heic" ∨ ext = ".heif" then
      .error (.badRequest "HEIC не поддерживается. Сохраните как JPEG/PNG/WebP.")
    else
      .ok ("/uploads/" ++ uploadSafeName filename now tokenHex4 tokenHex3,
        chunks.flatten)

/-! ## Bot handlers (lines 313-434) -/

/-- `ADMIN_ID_RUNTIME` starts as the `ADMIN_CHAT_ID` environment value. -/
def ADMIN_ID_RUNTIME_init (ADMIN_CHAT_ID : String) : String := ADMIN_CHAT_ID

/-- `cmd_setadmin`: overwrite `ADMIN_ID_RUNTIME` with `str(m.chat.id)` and
answer the confirmation; returns (new runtime value, reply text). -/
def cmd_setadmin (chat_id : Int) (_adminIdRuntime : String) : String × String :=
  (intToStr chat_id,
   "Адмін-чат встановлено: <code>" ++ intToStr chat_id ++ "</code>")

/-- `ADMIN_ID_RUNTIME` after a sequence of `/setadmin` commands from the
given chat ids, starting from `ADMIN_CHAT_ID`. -/
def adminIdAfter (ADMIN_CHAT_ID : String) (chats : List Int) : String :=
  chats.foldl (fun st c => (cmd_setadmin c st).1) (ADMIN_ID_RUNTIME_init ADMIN_CHAT_ID)

/-- `notify_admin`: send `text` to `int(ADMIN_ID_RUNTIME)` only when the
runtime id is non-empty and all digits; `sendOk = false` models
`bot.send_message` raising, which the bare `except` swallows.  The result
is the delivered message, `none` when nothing reaches the operator. -/
def notify_admin (adminIdRuntime : String) (sendOk : Bool) (text : String) :
    Option (Nat × String) :=
  if adminIdRuntime ≠ "" ∧ pyIsDigit adminIdRuntime = true then
    if sendOk then some (pyInt adminIdRuntime, text) else none
  else none

/-- One entry of the checkout `items` payload; keys may be absent. -/
structure WebAppItem where
  sku : Option String
  qty : Option Int
deriving DecidableEq

/-- The parsed checkout JSON; `none` fields model absent keys, the two
booleans model the truthiness of `data.get("agree18")`/`data.get("acceptRules")`. -/
structure CheckoutData where
  type : Option String
  items : List WebAppItem
  city : Option String
  branch : Option String
  receiver : Option String
  phone : Option String
  username : Option String
  agree18 : Bool
  acceptRules : Bool
deriving DecidableEq

/-- `str(it.get("sku"))` (Python prints an absent key as `"None"`). -/
def itemSku (it : WebAppItem) : String :=
  match it.sku with
  | some s => s
  | none => "None"

/-- `int(it.get("qty", 1))`. -/
def itemQty (it : WebAppItem) : Int := it.qty.getD 1

/-- One iteration of the price-loading loop of `on_webapp_data`: look the
sku up in `products`; keep the item only when a row exists and the qty is
positive, taking title, price and currency from the row, never from the
client payload.  The accumulator is `(items, total, currency)`. -/
def processItemsStep (products : List Product)
    (acc : List (String × String × Int × Int) × Int × String)
    (it : WebAppItem) : List (String × String × Int × Int) × Int × String :=
  let sku := itemSku it
  let qty := itemQty it
  match products.find? (fun p => p.sku == sku) with
  | none => acc
  | some p =>
    if qty ≤ 0 then acc
    else (acc.1 ++ [(sku, p.title, p.price, qty)], acc.2.1 + p.price * qty, p.currency)

/-- The whole price-loading loop, started from `([], 0, "UAH")`. -/
def processItems (products : List Product) (raw : List WebAppItem) :
    List (String × String × Int × Int) × Int × String :=
  raw.foldl (processItemsStep products) ([], 0, "UAH")

/-- `"\n".join(f"• {t} × {q} = {p*q} {currency}" for ...)`. -/
def items_txt (items : List (String × String × Int × Int)) (currency : String) : String :=
  String.intercalate "\n" (items.map (fun x =>
    "• " ++ x.2.1 ++ " × " ++ intToStr x.2.2.2 ++ " = " ++
    intToStr (x.2.2.1 * x.2.2.2) ++ " " ++ currency))

/-- The admin notification text built by `on_webapp_data`. -/
def admin_msg (order_id : Nat) (receiver phone : String) (user : UserInfo)
    (items : List (String × String × Int × Int)) (total : Int)
    (currency city branch : String) : String :=
  "🆕 <b>Замовлення #" ++ natToStr order_id ++ "</b>\n" ++
  "Клієнт: <b>" ++ receiver ++ "</b> / " ++ phone ++ "\n" ++
  "TG: @" ++ (match user.username with
              | some s => if s = "" then "—" else s
              | none => "—") ++
  " (ID: " ++ intToStr user.id ++ ")\n" ++
  items_txt items currency ++ "\n" ++
  "<b>Всього:</b> " ++ intToStr total ++ " " ++ currency ++ "\n" ++
  "Місто: " ++ city ++ "\nВідділення: " ++ branch ++ "\nСтатус: new"

/-- The customer confirmation reply for a created order. -/
def confirm_msg (order_id : Nat) : String :=
  "✅ Замовлення #" ++ natToStr order_id ++ " створено! Ми зв\x27яжемося щодо доставки."

/-- The `FakeUser` substitution: when the payload carries a username and
the chat user has none (absent or empty), save the order under the payload
username with its leading `@`s stripped. -/
def webUser (from_user : UserInfo) (username : String) : UserInfo :=
  if username ≠ "" ∧ from_user.username.getD "" = "" then
    { id := from_user.id, username := some (pyLStrip username '@'),
      first_name := from_user.first_name, last_name := from_user.last_name }
  else from_user

/-- Everything `on_webapp_data` does that is observable: the resulting
database, the `m.answer` replies in order, the text passed to
`notify_admin` (when reached), and the message actually delivered to the
operator. -/
structure BotEffects where
  db : OrdersDb
  replies : List String
  notifyCalled : Option String
  adminSent : Option (Nat × String)
deriving DecidableEq

/-- `on_webapp_data`: parse the web-app payload (`payload = none` models
`json.loads` raising), validate type, 18+/rules consent and username
shape, load prices from the `products` table, reject an empty cart, save
the order, notify the operator and confirm to the customer. -/
def on_webapp_data (products : List Product) (db : OrdersDb)
    (from_user : UserInfo) (payload : Option CheckoutData) (now : Int)
    (adminIdRuntime : String) (sendOk : Bool) : BotEffects :=
  match payload with
  | none => ⟨db, ["Не вдалося прочитати дані з вітрини."], none, none⟩
  | some data =>
    if ¬ data.type = some "checkout" then
      ⟨db, ["Отримано дані вітрини, але тип невідомий."], none, none⟩
    else if data.agree18 = false ∨ data.acceptRules = false then
      ⟨db, ["Потрібно підтвердити 18+ і правила."], none, none⟩
    else
      let username := pyStrip (data.username.getD "")
      if pyStartswith username "@" = false then
        ⟨db, ["Вкажіть ваш нік у Telegram (починається з @)."], none, none⟩
      else
        let loaded := processItems products data.items
        if loaded.1 = [] then ⟨db, ["Корзина порожня."], none, none⟩
        else
          let city := pyStrip (data.city.getD "")
          let branch := pyStrip (data.branch.getD "")
          let receiver := pyStrip (data.receiver.getD "")
          let phone := pyStrip (data.phone.getD "")
          let user := webUser from_user username
          let res := save_order db user loaded.1 loaded.2.1 loaded.2.2
            city branch receiver phone now none
          match res.2 with
          | some oid =>
            let msg := admin_msg oid receiver phone user loaded.1 loaded.2.1
              loaded.2.2 city branch
            ⟨res.1, [confirm_msg oid], some msg, notify_admin adminIdRuntime sendOk msg⟩
          | none => ⟨res.1, [], none, none⟩

/-! ## Route table and dispatch (`make_app`, lines 437-464) -/

/-- One `app.router.add_*` registration. -/
structure Route where
  method : String
  path : String
  handler : String
deriving DecidableEq

/-- The route table built by `make_app`, in registration order. -/
def make_app_routes : List Route :=
  [ ⟨"GET", "/health", "health"⟩,
    ⟨"GET", "/api/catalog", "api_catalog"⟩,
    ⟨"GET", "/api/admin/catalog", "api_admin_catalog_get"⟩,
    ⟨"POST", "/api/admin/catalog", "api_admin_catalog_upsert"⟩,
    ⟨"DELETE", "/api/admin/catalog/{sku}", "api_admin_catalog_delete"⟩,
    ⟨"POST", "/api/admin/upload", "api_admin_upload"⟩,
    ⟨"GET", "/api/admin/orders", "api_admin_orders"⟩,
    ⟨"GET", "/api/admin/orders/{order_id}", "api_admin_order_one"⟩,
    ⟨"POST", "/api/admin/orders/{order_id}/status", "api_admin_order_status"⟩,
    ⟨"GET", "/", "static_index"⟩,
    ⟨"GET", "/index.html", "static_index"⟩,
    ⟨"GET", "/admin.html", "static_admin"⟩,
    ⟨"GET", "/uploads/{name}", "static_uploads"⟩ ]

/-- The mutable server state the HTTP handlers touch. -/
structure AppState where
  products : List Product
  ordersDb : OrdersDb
  uploads : List (String × List Nat)
deriving DecidableEq

/-- The pieces of an HTTP request the handlers read: the admin header, the
JSON bodies, the path `match_info` captures and the multipart upload. -/
structure RequestData where
  x_admin_secret : Option String
  json_upsert : UpsertData
  match_sku : String
  match_order_id : Nat
  match_name : String
  json_status : Option String
  upload_has_file : Bool
  upload_field_name : String
  upload_filename : Option String
  upload_chunks : List (List Nat)
deriving DecidableEq

/-- The response bodies the handlers produce (static pages abstracted to
their file name). -/
inductive HttpResponse where
  | jsonOkTrue
  | jsonHealth (time : Int)
  | jsonCatalog (items : List CatalogEntry)
  | jsonOrders (orders : List OrderSummary)
  | jsonOrder (o : OrderDetail)
  | jsonUpload (url : String)
  | htmlPage (name : String)
  | fileBytes (name : String)
deriving DecidableEq

/-- One HTTP handler invocation, dispatched by the handler name of the
route table.  Every `/api/admin/` handler starts with `require_admin`,
exactly as in the source; an `Except` error models a raised
`HTTPException`, which aborts before any commit. -/
def runHandler (ADMIN_SECRET : String) (name : String) (req : RequestData)
    (st : AppState) (now : Int) (newProductId : Nat) (tokenHex4 tokenHex3 : String) :
    Except HttpError (HttpResponse × AppState) :=
  match name with
  | "health" => .ok (.jsonHealth now, st)
  | "api_catalog" => .ok (.jsonCatalog (list_products st.products), st)
  | "api_admin_catalog_get" => do
    let _ ← require_admin ADMIN_SECRET req.x_admin_secret
    .ok (.jsonCatalog (list_products st.products), st)
  | "api_admin_catalog_upsert" => do
    let _ ← require_admin ADMIN_SECRET req.x_admin_secret
    match upsert_product req.json_upsert st.products now newProductId with
    | .ok t => .ok (.jsonOkTrue, { st with products := t })
    | .error m => .error (.badRequest m)
  | "api_admin_catalog_delete" => do
    let _ ← require_admin ADMIN_SECRET req.x_admin_secret
    .ok (.jsonOkTrue, { st with products := delete_product req.match_sku st.products })
  | "api_admin_upload" => do
    let _ ← require_admin ADMIN_SECRET req.x_admin_secret
    match api_admin_upload req.upload_has_file req.upload_field_name
        req.upload_filename req.upload_chunks now tokenHex4 tokenHex3 with
    | .ok r => .ok (.jsonUpload r.1, { st with uploads := st.uploads ++ [r] })
    | .error e => .error e
  | "api_admin_orders" => do
    let _ ← require_admin ADMIN_SECRET req.x_admin_secret
    .ok (.jsonOrders (list_orders st.ordersDb 200), st)
  | "api_admin_order_one" => do
    let _ ← require_admin ADMIN_SECRET req.x_admin_secret
    match get_order st.ordersDb req.match_order_id with
    | .ok o => .ok (.jsonOrder o, st)
    | .error m => .error (.notFound m)
  | "api_admin_order_status" => do
    let _ ← require_admin ADMIN_SECRET req.x_admin_secret
    let r := set_order_status st.ordersDb req.match_order_id (req.json_status.getD "new")
    match r.2 with
    | none => .ok (.jsonOkTrue, { st with ordersDb := r.1 })
    | some m => .error (.badRequest m)
  | "static_index" => .ok (.htmlPage "index.html", st)
  | "static_admin" => .ok (.htmlPage "admin.html", st)
  | "static_uploads" =>
    match st.uploads.find? (fun u => u.1 == "/uploads/" ++ req.match_name) with
    | some _ => .ok (.fileBytes req.match_name, st)
    | none => .error (.notFound "")
  | _ => .error (.notFound "no route")

/-- aiohttp turns a raised `HTTPException` into the error response while
the server state stays as it was: the total version of `runHandler`. -/
def runHandlerTotal (ADMIN_SECRET : String) (name : String) (req : RequestData)
    (st : AppState) (now : Int) (newProductId : Nat) (tokenHex4 tokenHex3 : String) :
    Except HttpError HttpResponse × AppState :=
  match runHandler ADMIN_SECRET name req st now newProductId tokenHex4 tokenHex3 with
  | .ok r => (.ok r.1, r.2)
  | .error e => (.error e, st)

/-! ## Invariants and sample data -/

/-- The `sku TEXT UNIQUE` constraint of the `products` schema: at most one
row per SKU. -/
def SkuUnique (t : List Product) : Prop :=
  t.Pairwise (fun a b => a.sku ≠ b.sku)

/-- A sample chat user. -/
def sampleUser : UserInfo := ⟨7, some "nick", some "Ivan", none⟩

/-- A sample chat user whose profile has no username. -/
def sampleAnonUser : UserInfo := ⟨8, none, some "Olena", none⟩

/-- A sample products table (mirrors the demo seed rows of `init_db`). -/
def sampleProducts : List Product :=
  [ ⟨1, "device_1", "Vape Device X", "d1", 1899, "UAH", "", "devices", 1, "in_stock", 100⟩,
    ⟨2, "liquid_1", "Mango 30ml", "d2", 349, "UAH", "", "liquids", 0, "in_stock", 200⟩ ]

/-- A sample order row. -/
def sampleOrder : OrderRow :=
  ⟨1, 7, some "@nick", "Ivan", 100, "UAH", "Kyiv", "b", "r", "p", "new", 50⟩

/-- A sample orders database holding `sampleOrder`. -/
def sampleOrdersDb : OrdersDb := ⟨[sampleOrder], [], 2, 1⟩

/-- A sample well-formed upsert body for an existing SKU. -/
def sampleUpsert : UpsertData :=
  ⟨some "device_1", some "T", none, some 500, none, none, some "devices",
   some "1", some "in_stock"⟩

/-- A sample upsert body whose `title` key is missing. -/
def sampleUpsertMissing : UpsertData :=
  ⟨some "device_1", none, none, some 500, none, none, some "devices",
   some "1", some "in_stock"⟩

/-- A sample HTTP request. -/
def sampleReq : RequestData :=
  ⟨none, sampleUpsert, "device_1", 1, "x.png", some "shipped", true, "file",
   some "a.png", [[1, 2], [3]]⟩

/-- A sample server state. -/
def sampleState : AppState := ⟨sampleProducts, sampleOrdersDb, []⟩

/-- A sample valid checkout payload for two units of `device_1`. -/
def sampleCheckout : CheckoutData :=
  ⟨some "checkout", [⟨some "device_1", some 2⟩], some "Київ", some "№25",
   some "Іван", some "+380501112233", some "@nick", true, true⟩

/-! ## Theorems -/

/-- C10: `set_order_status` rejects any status outside
`{new, processing, shipped, done, canceled}` with `HTTPBadRequest` and an
unchanged database; for a whitelisted status it rewrites only the `status`
column of the row with the given id, leaving every other column of that
row, every other row and the `order_items` table unchanged. -/
theorem set_order_status_spec (db : OrdersDb) (oid : Nat) (status : String) :
    (status ∉ VALID_ORDER_STATUSES →
      set_order_status db oid status = (db, some "bad status")) ∧
    (status ∈ VALID_ORDER_STATUSES →
      ∃ db2, set_order_status db oid status = (db2, none) ∧
        db2.order_items = db.order_items ∧
        db2.nextOrderId = db.nextOrderId ∧
        db2.nextItemId = db.nextItemId ∧
        db2.orders.length = db.orders.length ∧
        ∀ i : Fin db.orders.length, ∃ h2 : i.1 < db2.orders.length,
          (db2.orders.get ⟨i.1, h2⟩).id = (db.orders.get i).id ∧
          (db2.orders.get ⟨i.1, h2⟩).tg_user_id = (db.orders.get i).tg_user_id ∧
          (db2.orders.get ⟨i.1, h2⟩).tg_username = (db.orders.get i).tg_username ∧
          (db2.orders.get ⟨i.1, h2⟩).tg_name = (db.orders.get i).tg_name ∧
          (db2.orders.get ⟨i.1, h2⟩).total = (db.orders.get i).total ∧
          (db2.orders.get ⟨i.1, h2⟩).currency = (db.orders.get i).currency ∧
          (db2.orders.get ⟨i.1, h2⟩).city = (db.orders.get i).city ∧
          (db2.orders.get ⟨i.1, h2⟩).branch = (db.orders.get i).branch ∧
          (db2.orders.get ⟨i.1, h2⟩).receiver = (db.orders.get i).receiver ∧
          (db2.orders.get ⟨i.1, h2⟩).phone = (db.orders.get i).phone ∧
          (db2.orders.get ⟨i.1, h2⟩).created_at = (db.orders.get i).created_at ∧
          (db2.orders.get ⟨i.1, h2⟩).status =
            (if (db.orders.get i).id = oid then status else (db.orders.get i).status) ∧
          (¬ (db.orders.get i).id = oid →
            db2.orders.get ⟨i.1, h2⟩ = db.orders.get i)) := by
  constructor
  · intro h
    simp only [set_order_status, if_neg h]
  · intro h
    refine ⟨{ db with orders := db.orders.map (fun r =>
        if r.id = oid then { r with status := status } else r) },
      by simp only [set_order_status, if_pos h], rfl, rfl, rfl, by simp, ?_⟩
    intro i
    refine ⟨by simp, ?_⟩
    simp only [List.get_eq_getElem, List.getElem_map]
    by_cases hid : db.orders[i.1].id = oid
    · simp [hid]
    · simp [hid]

/-- Witness for C10 at a concrete database, one rejected and one applied
status change. -/
theorem set_order_status_spec_witness :
    (set_order_status sampleOrdersDb 1 "bogus" = (sampleOrdersDb, some "bad status")) ∧
    (∃ db2, set_order_status sampleOrdersDb 1 "shipped" = (db2, none) ∧
      db2.order_items = sampleOrdersDb.order_items) := by
  constructor
  · exact (set_order_status_spec sampleOrdersDb 1 "bogus").1 (by decide)
  · obtain ⟨db2, h1, h2, -⟩ :=
      (set_order_status_spec sampleOrdersDb 1 "shipped").2 (by decide)
    exact ⟨db2, h1, h2⟩

/-- C8: every route whose path lies under `/api/admin/` dispatches to a
handler that runs `require_admin` first: with a missing or mismatched
`X-Admin-Secret` (in particular whenever `ADMIN_SECRET` is empty) the
request is answered `HTTPUnauthorized` and the server state is untouched;
moreover `require_admin` succeeds exactly when `ADMIN_SECRET` is non-empty
and equals the stripped header. -/
theorem admin_routes_require_admin (ADMIN_SECRET : String) (r : Route)
    (req : RequestData) (st : AppState) (now : Int) (npid : Nat) (h4 h3 : String)
    (hr : r ∈ make_app_routes)
    (hpath : pyStartswith r.path "/api/admin/" = true)
    (hbad : ADMIN_SECRET = "" ∨ ¬ pyStrip (req.x_admin_secret.getD "") = ADMIN_SECRET) :
    runHandlerTotal ADMIN_SECRET r.handler req st now npid h4 h3 =
      (.error (.unauthorized "X-Admin-Secret required / mismatch"), st) ∧
    (∀ s hd, require_admin s hd = .ok () ↔
      (¬ s = "" ∧ pyStrip (hd.getD "") = s)) := by
  have hreq : require_admin ADMIN_SECRET req.x_admin_secret =
      .error (.unauthorized "X-Admin-Secret required / mismatch") := by
    unfold require_admin
    exact if_pos hbad
  constructor
  · simp only [make_app_routes, List.mem_cons, List.not_mem_nil, or_false] at hr
    rcases hr with rfl | rfl | rfl | rfl | rfl | rfl | rfl | rfl | rfl | rfl | rfl | rfl | rfl <;>
      first
        | exact absurd hpath (by decide)
        | (simp only [runHandlerTotal, runHandler, hreq]; rfl)
  · intro s hd
    unfold require_admin
    by_cases h1 : s = ""
    · simp [h1]
    · by_cases h2 : pyStrip (hd.getD "") = s
      · simp [h1, h2]
      · simp [h1, h2]

/-- Witness for C8: the admin catalog route with no header and a set
secret is rejected without touching the state. -/
theorem admin_routes_require_admin_witness :
    runHandlerTotal "s3cret" "api_admin_catalog_get" sampleReq sampleState 0 9 "aa" "bb" =
      (.error (.unauthorized "X-Admin-Secret required / mismatch"), sampleState) := by
  exact (admin_routes_require_admin "s3cret"
    ⟨"GET", "/api/admin/catalog", "api_admin_catalog_get"⟩
    sampleReq sampleState 0 9 "aa" "bb" (by decide) (by decide)
    (Or.inr (by decide))).1

/-- C9: the public `/api/catalog` handler answers, with no filtering, the
serialization of a permutation of the whole `products` table (rows with
`is_active = 0` included) ordered by `created_at` descending; each row is
serialized by `productEntry` into a `CatalogEntry`, whose fields are
exactly the nine keys `sku, title, description, price, currency,
image_url, category, is_active, availability`. -/
theorem api_catalog_spec (ADMIN_SECRET : String) (req : RequestData)
    (st : AppState) (now : Int) (npid : Nat) (h4 h3 : String) :
    ∃ l : List Product,
      l.Perm st.products ∧
      List.Pairwise (fun a b : Product => a.created_at ≥ b.created_at) l ∧
      runHandlerTotal ADMIN_SECRET "api_catalog" req st now npid h4 h3 =
        (.ok (.jsonCatalog (l.map productEntry)), st) ∧
      list_products st.products = l.map productEntry ∧
      ∀ p ∈ st.products, productEntry p ∈ list_products st.products := by
  refine ⟨st.products.mergeSort (fun a b => a.created_at ≥ b.created_at),
    List.mergeSort_perm _ _, ?_, rfl, rfl, ?_⟩
  · have h := @List.sorted_mergeSort Product
      (fun a b => decide (a.created_at ≥ b.created_at))
      (by intro a b c hab hbc; simp at hab hbc ⊢; omega)
      (by intro a b; simp; omega) st.products
    simpa using h
  · intro p hp
    exact List.mem_map_of_mem productEntry (List.mem_mergeSort.mpr hp)

/-- C2: `upsert_product` raises `HTTPBadRequest` and writes nothing when a
required field is missing; with all required fields present it updates in
place every row carrying the input SKU (there is one under the schema
invariant) keeping `id`, `sku`, `created_at`, and inserts a fresh row when
the SKU is absent; and it preserves the at-most-one-row-per-SKU invariant
`SkuUnique`. -/
theorem upsert_product_spec (d : UpsertData) (t : List Product) (now : Int)
    (newId : Nat) :
    (∀ k, missingField d = some k →
      upsert_product d t now newId = .error ("Missing field: " ++ k)) ∧
    (missingField d = none →
      ((∃ p ∈ t, p.sku = d.sku.getD "") →
        ∃ t2, upsert_product d t now newId = .ok t2 ∧
          t2.length = t.length ∧
          ∀ i : Fin t.length, ∃ h2 : i.1 < t2.length,
            t2.get ⟨i.1, h2⟩ =
              (if (t.get i).sku = d.sku.getD "" then updatedProduct d (t.get i)
               else t.get i)) ∧
      ((∀ p ∈ t, ¬ p.sku = d.sku.getD "") →
        upsert_product d t now newId = .ok (t ++ [insertedProduct d now newId]))) ∧
    (∀ p, (updatedProduct d p).sku = p.sku ∧ (updatedProduct d p).id = p.id ∧
      (updatedProduct d p).created_at = p.created_at ∧
      (updatedProduct d p).title = d.title.getD "" ∧
      (updatedProduct d p).price = d.price.getD 0) ∧
    ((insertedProduct d now newId).sku = d.sku.getD "" ∧
      (insertedProduct d now newId).created_at = now) ∧
    (∀ t2, SkuUnique t → upsert_product d t now newId = .ok t2 → SkuUnique t2) := by
  refine ⟨?_, ?_, ?_, ⟨rfl, rfl⟩, ?_⟩
  · intro k hk
    simp [upsert_product, hk]
  · intro hm
    constructor
    · intro ⟨p, hp, hps⟩
      have hsome : (t.find? (fun q => q.sku == d.sku.getD "")).isSome := by
        exact List.find?_isSome.mpr ⟨p, hp, by simp [hps]⟩
      obtain ⟨q, hq⟩ := Option.isSome_iff_exists.mp hsome
      refine ⟨t.map (fun p => if p.sku == d.sku.getD "" then updatedProduct d p else p),
        by simp [upsert_product, hm, hq], by simp, ?_⟩
      intro i
      refine ⟨by simp, ?_⟩
      simp only [List.get_eq_getElem, List.getElem_map]
      by_cases hid : t[i.1].sku = d.sku.getD ""
      · simp [hid]
      · simp [hid]
    · intro hnone
      have hfind : t.find? (fun q => q.sku == d.sku.getD "") = none := by
        exact List.find?_eq_none.mpr (fun q hq => by simpa using hnone q hq)
      simp [upsert_product, hm, hfind]
  · intro p
    exact ⟨rfl, rfl, rfl, rfl, rfl⟩
  · intro t2 hu hok
    unfold upsert_product at hok
    cases hm2 : missingField d with
    | some k =>
      rw [hm2] at hok
      exact absurd hok (by simp)
    | none =>
      rw [hm2] at hok
      cases hf : t.find? (fun q => q.sku == d.sku.getD "") with
      | some q =>
        rw [hf] at hok
        have ht2 : t.map (fun p =>
            if p.sku == d.sku.getD "" then updatedProduct d p else p) = t2 := by
          simpa using hok
        subst ht2
        rw [SkuUnique, List.pairwise_map]
        have hsku : ∀ p : Product,
            (if p.sku == d.sku.getD "" then updatedProduct d p else p).sku = p.sku := by
          intro p
          by_cases h : p.sku == d.sku.getD ""
          · simp [h, updatedProduct]
          · simp [h]
        refine hu.imp ?_
        intro a b hab
        rw [hsku a, hsku b]
        exact hab
      | none =>
        rw [hf] at hok
        have ht2 : t ++ [insertedProduct d now newId] = t2 := by simpa using hok
        subst ht2
        rw [SkuUnique, List.pairwise_append]
        refine ⟨hu, List.pairwise_singleton _ _, ?_⟩
        intro a ha b hb
        simp only [List.mem_singleton] at hb
        subst hb
        have hne := List.find?_eq_none.mp hf a ha
        simp at hne
        simpa [insertedProduct] using hne

/-- Witness for C2: a missing `title` is rejected, and an upsert on the
existing SKU `device_1` succeeds without changing the table length. -/
theorem upsert_product_spec_witness :
    upsert_product sampleUpsertMissing sampleProducts 300 9 =
      .error "Missing field: title" ∧
    ∃ t2, upsert_product sampleUpsert sampleProducts 300 9 = .ok t2 ∧
      t2.length = sampleProducts.length := by
  constructor
  · exact (upsert_product_spec sampleUpsertMissing sampleProducts 300 9).1
      "title" (by decide)
  · obtain ⟨t2, h1, h2, -⟩ :=
      ((upsert_product_spec sampleUpsert sampleProducts 300 9).2.1 (by decide)).1
        ⟨⟨1, "device_1", "Vape Device X", "d1", 1899, "UAH", "", "devices", 1,
          "in_stock", 100⟩, by decide, by decide⟩
    exact ⟨t2, h1, h2⟩

/-- Without an injected failure, the item-insert loop appends exactly one
`order_items` row per item, projecting back to the input items, all keyed
by the order id. -/
theorem insertItems_none_eq (oid : Nat) :
    ∀ (items : List (String × String × Int × Int)) (db : OrdersDb) (step : Nat),
      ∃ rows : List OrderItem,
        insertItems db oid step none items =
          .ok ⟨db.orders, db.order_items ++ rows, db.nextOrderId,
               db.nextItemId + rows.length⟩ ∧
        rows.map (fun i => (i.product_sku, i.product_title, i.price, i.qty)) = items ∧
        ∀ i ∈ rows, i.order_id = oid := by
  intro items
  induction items with
  | nil =>
    intro db step
    exact ⟨[], by simp [insertItems], rfl, by simp⟩
  | cons x rest ih =>
    intro db step
    obtain ⟨sku, title, price, qty⟩ := x
    obtain ⟨rows, h1, h2, h3⟩ := ih
      { db with
        order_items := db.order_items ++
          [{ id := db.nextItemId, order_id := oid, product_sku := sku,
             product_title := title, price := price, qty := qty }],
        nextItemId := db.nextItemId + 1 } (step + 1)
    refine ⟨{ id := db.nextItemId, order_id := oid, product_sku := sku,
              product_title := title, price := price, qty := qty } :: rows,
      ?_, by simp [h2], ?_⟩
    · rw [insertItems, if_neg (by simp)]
      rw [h1]
      simp only [Except.ok.injEq, OrdersDb.mk.injEq, List.append_assoc,
        List.singleton_append, List.length_cons, true_and, and_true]
      omega
    · intro i hi
      rcases List.mem_cons.mp hi with rfl | hmem
      · rfl
      · exact h3 i hmem

/-- A failure injected at any step the loop actually reaches aborts the
transaction with an error. -/
theorem insertItems_fail_eq (oid k : Nat) :
    ∀ (items : List (String × String × Int × Int)) (db : OrdersDb) (step : Nat),
      step ≤ k → k < step + items.length →
      insertItems db oid step (some k) items = .error () := by
  intro items
  induction items with
  | nil =>
    intro db step h1 h2
    simp at h2
    omega
  | cons x rest ih =>
    intro db step h1 h2
    obtain ⟨sku, title, price, qty⟩ := x
    by_cases hk : k = step
    · rw [insertItems, if_pos (by simp [hk])]
    · rw [insertItems, if_neg (by simp; omega)]
      refine ih _ (step + 1) (by omega) ?_
      simp only [List.length_cons] at h2
      omega

/-- The success path of `save_order`, spelled out: one order row appended,
one item row per item appended, counters advanced, new id returned. -/
theorem save_order_none_eq (db : OrdersDb) (user : UserInfo)
    (items : List (String × String × Int × Int)) (total : Int)
    (currency city branch receiver phone : String) (now : Int) :
    ∃ rows : List OrderItem,
      save_order db user items total currency city branch receiver phone now none =
        (⟨db.orders ++ [orderRowOf db.nextOrderId user total currency city branch
            receiver phone now],
          db.order_items ++ rows, db.nextOrderId + 1, db.nextItemId + rows.length⟩,
         some db.nextOrderId) ∧
      rows.map (fun i => (i.product_sku, i.product_title, i.price, i.qty)) = items ∧
      ∀ i ∈ rows, i.order_id = db.nextOrderId := by
  obtain ⟨rows, h1, h2, h3⟩ := insertItems_none_eq db.nextOrderId items
    { db with
      orders := db.orders ++ [orderRowOf db.nextOrderId user total currency city
        branch receiver phone now],
      nextOrderId := db.nextOrderId + 1 } 1
  refine ⟨rows, ?_, h2, h3⟩
  simp only [save_order, reduceCtorEq, if_false]
  rw [h1]

/-- C3: `save_order` is atomic: a failure of any of the inserts of the
transaction (the order insert is step `0`, the `i`-th item insert is step
`i+1`) leaves both the `orders` and `order_items` tables exactly as they
were and yields no order id, while the failure-free run commits the order
row together with one item row per item and returns the new order's row
id. -/
theorem save_order_atomic (db : OrdersDb) (user : UserInfo)
    (items : List (String × String × Int × Int)) (total : Int)
    (currency city branch receiver phone : String) (now : Int) :
    (∀ k, k ≤ items.length →
      save_order db user items total currency city branch receiver phone now
        (some k) = (db, none)) ∧
    (∃ rows : List OrderItem,
      save_order db user items total currency city branch receiver phone now none =
        (⟨db.orders ++ [orderRowOf db.nextOrderId user total currency city branch
            receiver phone now],
          db.order_items ++ rows, db.nextOrderId + 1, db.nextItemId + rows.length⟩,
         some db.nextOrderId) ∧
      rows.map (fun i => (i.product_sku, i.product_title, i.price, i.qty)) = items ∧
      ∀ i ∈ rows, i.order_id = db.nextOrderId) := by
  constructor
  · intro k hk
    by_cases h0 : k = 0
    · simp [save_order, h0]
    · simp only [save_order]
      rw [if_neg (by simp; omega)]
      rw [insertItems_fail_eq db.nextOrderId k items _ 1 (by omega) (by omega)]
  · exact save_order_none_eq db user items total currency city branch receiver
      phone now

/-- Witness for C3: with one item, a failure at the item insert (step 1)
keeps the sample database unchanged. -/
theorem save_order_atomic_witness :
    save_order sampleOrdersDb sampleUser [("device_1", "Vape Device X", 1899, 2)]
      3798 "UAH" "Київ" "№25" "Іван" "+380501112233" 500 (some 1) =
      (sampleOrdersDb, none) := by
  exact (save_order_atomic sampleOrdersDb sampleUser
    [("device_1", "Vape Device X", 1899, 2)] 3798 "UAH" "Київ" "№25" "Іван"
    "+380501112233" 500).1 1 (by decide)

/-- C5 counterexample: `api_admin_upload` stores the uploaded bytes
byte-for-byte.  For this concrete PNG-header upload the stored file
content equals the raw uploaded chunks concatenated — the handler never
decodes the image, so no center-crop and no resize happens before
storing, contradicting the claim. -/
theorem api_admin_upload_no_crop_counterexample :
    api_admin_upload true "file" (some "photo.png")
      [[137, 80], [78, 71, 13, 10]] 1700000000 "beefcafe" "abc123" =
      .ok ("/uploads/1700000000_abc123.png", [137, 80, 78, 71, 13, 10]) := by
  rfl

/-- C5 amended: the image upload operation stores the uploaded file's
bytes verbatim — the exact concatenation of the received chunks, with no
center-crop and no resize — rejecting only a missing `file` field and the
`.heic`/`.heif` extensions. -/
theorem api_admin_upload_stores_verbatim (hasFile : Bool) (fieldName : String)
    (filename : Option String) (chunks : List (List Nat)) (now : Int)
    (h4 h3 : String)
    (hfile : hasFile = true) (hname : fieldName = "file")
    (hheic : ¬ uploadExt filename h4 = ".heic")
    (hheif : ¬ uploadExt filename h4 = ".heif") :
    api_admin_upload hasFile fieldName filename chunks now h4 h3 =
      .ok ("/uploads/" ++ uploadSafeName filename now h4 h3, chunks.flatten) := by
  subst hfile hname
  rw [api_admin_upload, if_neg (by simp)]
  simp only []
  rw [if_neg (by rw [not_or]; exact ⟨hheic, hheif⟩)]

/-- Witness for C5's amended theorem at a concrete extensionless upload
(the stored name falls back to `.jpg`, the bytes are unchanged). -/
theorem api_admin_upload_stores_verbatim_witness :
    api_admin_upload true "file" (some "scan") [[1], [2, 3], []] 99 "aa" "bb" =
      .ok ("/uploads/99_bb.jpg", [1, 2, 3]) := by
  have h := api_admin_upload_stores_verbatim true "file" (some "scan")
    [[1], [2, 3], []] 99 "aa" "bb" rfl rfl (by decide) (by decide)
  rw [h]
  rfl

/-- Invariant of the price-loading loop: the running total is the sum of
`price * qty` over the collected items, and every collected item carries
the title and price of the product row found for its sku, with a positive
quantity. -/
theorem processItems_inv (products : List Product) (raw : List WebAppItem) :
    ∀ acc : List (String × String × Int × Int) × Int × String,
      acc.2.1 = (acc.1.map (fun x => x.2.2.1 * x.2.2.2)).sum →
      (∀ x ∈ acc.1, ∃ p, products.find? (fun q => q.sku == x.1) = some p ∧
        x.2.1 = p.title ∧ x.2.2.1 = p.price ∧ 0 < x.2.2.2) →
      (raw.foldl (processItemsStep products) acc).2.1 =
        ((raw.foldl (processItemsStep products) acc).1.map
          (fun x => x.2.2.1 * x.2.2.2)).sum ∧
      (∀ x ∈ (raw.foldl (processItemsStep products) acc).1,
        ∃ p, products.find? (fun q => q.sku == x.1) = some p ∧
          x.2.1 = p.title ∧ x.2.2.1 = p.price ∧ 0 < x.2.2.2) := by
  induction raw with
  | nil =>
    intro acc h1 h2
    exact ⟨h1, h2⟩
  | cons it rest ih =>
    intro acc h1 h2
    rw [List.foldl_cons]
    apply ih
    · cases hf : products.find? (fun p => p.sku == itemSku it) with
      | none =>
        simp only [processItemsStep, hf]
        exact h1
      | some p =>
        by_cases hq : itemQty it ≤ 0
        · simp only [processItemsStep, hf, if_pos hq]
          exact h1
        · simp only [processItemsStep, hf, if_neg hq, List.map_append,
            List.sum_append]
          simp [h1]
    · cases hf : products.find? (fun p => p.sku == itemSku it) with
      | none =>
        simp only [processItemsStep, hf]
        exact h2
      | some p =>
        by_cases hq : itemQty it ≤ 0
        · simp only [processItemsStep, hf, if_pos hq]
          exact h2
        · simp only [processItemsStep, hf, if_neg hq]
          intro x hx
          rcases List.mem_append.mp hx with hmem | hnew
          · exact h2 x hmem
          · simp only [List.mem_singleton] at hnew
            subst hnew
            refine ⟨p, hf, rfl, rfl, ?_⟩
            show 0 < itemQty it
            omega

/-- An item whose sku is not in the table, or whose quantity is not
positive, is dropped: the loop step leaves the accumulator unchanged. -/
theorem processItemsStep_dropped (products : List Product) (it : WebAppItem)
    (acc : List (String × String × Int × Int) × Int × String)
    (h : products.find? (fun p => p.sku == itemSku it) = none ∨ itemQty it ≤ 0) :
    processItemsStep products acc it = acc := by
  cases hf : products.find? (fun p => p.sku == itemSku it) with
  | none => simp only [processItemsStep, hf]
  | some p =>
    rcases h with hn | hq
    · rw [hf] at hn
      exact absurd hn (by simp)
    · simp only [processItemsStep, hf, if_pos hq]

/-- When every raw item is dropped, the whole loop returns its start. -/
theorem processItems_dropped (products : List Product) (raw : List WebAppItem)
    (h : ∀ it ∈ raw,
      products.find? (fun p => p.sku == itemSku it) = none ∨ itemQty it ≤ 0) :
    ∀ acc, raw.foldl (processItemsStep products) acc = acc := by
  induction raw with
  | nil => intro acc; rfl
  | cons it rest ih =>
    intro acc
    rw [List.foldl_cons, processItemsStep_dropped products it acc (h it (by simp))]
    exact ih (fun x hx => h x (by simp [hx])) acc

/-- A list is a prefix of itself. -/
theorem listIsPre_self (l : List Char) : listIsPre l l = true := by
  induction l with
  | nil => rfl
  | cons c cs ih => simp [listIsPre, ih]

/-- Extending the scanned list to the right preserves a prefix match. -/
theorem listIsPre_append_right (l : List Char) :
    ∀ x m, listIsPre l x = true → listIsPre l (x ++ m) = true := by
  induction l with
  | nil => intro x m _; rfl
  | cons c cs ih =>
    intro x m h
    cases x with
    | nil => simp [listIsPre] at h
    | cons b bs =>
      simp only [listIsPre, List.cons_append, Bool.and_eq_true] at h ⊢
      exact ⟨h.1, ih bs m h.2⟩

/-- Appending does not change the character list other than by
concatenation. -/
theorem toList_append (a b : String) : (a ++ b).toList = a.toList ++ b.toList := by
  obtain ⟨d1⟩ := a
  obtain ⟨d2⟩ := b
  rfl

/-- A string starts with itself. -/
theorem pyStartswith_self (s : String) : pyStartswith s s = true :=
  listIsPre_self s.toList

/-- A string keeps its prefixes when extended on the right. -/
theorem pyStartswith_append_left (x y pre : String)
    (h : pyStartswith x pre = true) : pyStartswith (x ++ y) pre = true := by
  unfold pyStartswith at h ⊢
  rw [toList_append]
  exact listIsPre_append_right pre.toList x.toList y.toList h

/-- Unparseable payload: error reply, nothing written. -/
theorem on_webapp_data_parse_err (products : List Product) (db : OrdersDb)
    (from_user : UserInfo) (now : Int) (aid : String) (sendOk : Bool) :
    on_webapp_data products db from_user none now aid sendOk =
      ⟨db, ["Не вдалося прочитати дані з вітрини."], none, none⟩ := rfl

/-- Non-checkout type: error reply, nothing written. -/
theorem on_webapp_data_type_err (products : List Product) (db : OrdersDb)
    (from_user : UserInfo) (d : CheckoutData) (now : Int) (aid : String)
    (sendOk : Bool) (h1 : ¬ d.type = some "checkout") :
    on_webapp_data products db from_user (some d) now aid sendOk =
      ⟨db, ["Отримано дані вітрини, але тип невідомий."], none, none⟩ := by
  simp only [on_webapp_data]
  rw [if_pos h1]

/-- Missing 18+/rules consent: error reply, nothing written. -/
theorem on_webapp_data_agree_err (products : List Product) (db : OrdersDb)
    (from_user : UserInfo) (d : CheckoutData) (now : Int) (aid : String)
    (sendOk : Bool) (h1 : d.type = some "checkout")
    (h2 : d.agree18 = false ∨ d.acceptRules = false) :
    on_webapp_data products db from_user (some d) now aid sendOk =
      ⟨db, ["Потрібно підтвердити 18+ і правила."], none, none⟩ := by
  simp only [on_webapp_data]
  rw [if_neg (not_not_intro h1), if_pos h2]

/-- Username not starting with `@`: error reply, nothing written. -/
theorem on_webapp_data_username_err (products : List Product) (db : OrdersDb)
    (from_user : UserInfo) (d : CheckoutData) (now : Int) (aid : String)
    (sendOk : Bool) (h1 : d.type = some "checkout") (h2 : d.agree18 = true)
    (h3 : d.acceptRules = true)
    (h4 : pyStartswith (pyStrip (d.username.getD "")) "@" = false) :
    on_webapp_data products db from_user (some d) now aid sendOk =
      ⟨db, ["Вкажіть ваш нік у Telegram (починається з @)."], none, none⟩ := by
  simp only [on_webapp_data]
  rw [if_neg (not_not_intro h1), if_neg (by simp [h2, h3]), if_pos h4]

/-- Empty cart after filtering: error reply, nothing written. -/
theorem on_webapp_data_empty_err (products : List Product) (db : OrdersDb)
    (from_user : UserInfo) (d : CheckoutData) (now : Int) (aid : String)
    (sendOk : Bool) (h1 : d.type = some "checkout") (h2 : d.agree18 = true)
    (h3 : d.acceptRules = true)
    (h4 : pyStartswith (pyStrip (d.username.getD "")) "@" = true)
    (h5 : (processItems products d.items).1 = []) :
    on_webapp_data products db from_user (some d) now aid sendOk =
      ⟨db, ["Корзина порожня."], none, none⟩ := by
  simp only [on_webapp_data]
  rw [if_neg (not_not_intro h1), if_neg (by simp [h2, h3]),
    if_neg (by simp [h4]), if_pos h5]

/-- The accepted-checkout path of `on_webapp_data`, spelled out: the order
and its item rows are appended, the customer gets the confirmation, the
admin summary is handed to `notify_admin`. -/
theorem on_webapp_data_success (products : List Product) (db : OrdersDb)
    (from_user : UserInfo) (d : CheckoutData) (now : Int) (aid : String)
    (sendOk : Bool) (h1 : d.type = some "checkout") (h2 : d.agree18 = true)
    (h3 : d.acceptRules = true)
    (h4 : pyStartswith (pyStrip (d.username.getD "")) "@" = true)
    (h5 : ¬ (processItems products d.items).1 = []) :
    ∃ rows : List OrderItem,
      on_webapp_data products db from_user (some d) now aid sendOk =
        ⟨⟨db.orders ++ [orderRowOf db.nextOrderId
              (webUser from_user (pyStrip (d.username.getD "")))
              (processItems products d.items).2.1 (processItems products d.items).2.2
              (pyStrip (d.city.getD "")) (pyStrip (d.branch.getD ""))
              (pyStrip (d.receiver.getD "")) (pyStrip (d.phone.getD "")) now],
          db.order_items ++ rows, db.nextOrderId + 1, db.nextItemId + rows.length⟩,
         [confirm_msg db.nextOrderId],
         some (admin_msg db.nextOrderId (pyStrip (d.receiver.getD ""))
           (pyStrip (d.phone.getD ""))
           (webUser from_user (pyStrip (d.username.getD "")))
           (processItems products d.items).1 (processItems products d.items).2.1
           (processItems products d.items).2.2 (pyStrip (d.city.getD ""))
           (pyStrip (d.branch.getD ""))),
         notify_admin aid sendOk
           (admin_msg db.nextOrderId (pyStrip (d.receiver.getD ""))
             (pyStrip (d.phone.getD ""))
             (webUser from_user (pyStrip (d.username.getD "")))
             (processItems products d.items).1 (processItems products d.items).2.1
             (processItems products d.items).2.2 (pyStrip (d.city.getD ""))
             (pyStrip (d.branch.getD "")))⟩ ∧
      rows.map (fun i => (i.product_sku, i.product_title, i.price, i.qty)) =
        (processItems products d.items).1 ∧
      ∀ i ∈ rows, i.order_id = db.nextOrderId := by
  obtain ⟨rows, hs, hmap, hoid⟩ := save_order_none_eq db
    (webUser from_user (pyStrip (d.username.getD "")))
    (processItems products d.items).1 (processItems products d.items).2.1
    (processItems products d.items).2.2 (pyStrip (d.city.getD ""))
    (pyStrip (d.branch.getD "")) (pyStrip (d.receiver.getD ""))
    (pyStrip (d.phone.getD "")) now
  refine ⟨rows, ?_, hmap, hoid⟩
  simp only [on_webapp_data]
  rw [if_neg (not_not_intro h1), if_neg (by simp [h2, h3]),
    if_neg (by simp [h4]), if_neg h5]
  rw [hs]

/-- C1: whenever `on_webapp_data` accepts a checkout (an order row is
written), the stored total equals the sum of `price * qty` over the
stored items, and every stored item's price and title are the ones of the
`products` row found for its sku — never client-supplied values. -/
theorem checkout_total_from_price_list (products : List Product) (db : OrdersDb)
    (from_user : UserInfo) (payload : Option CheckoutData) (now : Int)
    (aid : String) (sendOk : Bool)
    (hacc : ¬ (on_webapp_data products db from_user payload now aid
      sendOk).db.orders.length = db.orders.length) :
    ∃ (row : OrderRow) (rows : List OrderItem),
      (on_webapp_data products db from_user payload now aid sendOk).db.orders =
        db.orders ++ [row] ∧
      (on_webapp_data products db from_user payload now aid sendOk).db.order_items =
        db.order_items ++ rows ∧
      row.total = (rows.map (fun i => i.price * i.qty)).sum ∧
      ∀ i ∈ rows, ∃ p, products.find? (fun q => q.sku == i.product_sku) = some p ∧
        i.product_title = p.title ∧ i.price = p.price ∧ 0 < i.qty := by
  cases payload with
  | none =>
    rw [on_webapp_data_parse_err] at hacc
    simp at hacc
  | some d =>
    by_cases h1 : d.type = some "checkout"
    case neg =>
      rw [on_webapp_data_type_err products db from_user d now aid sendOk h1] at hacc
      simp at hacc
    by_cases h2 : d.agree18 = true
    case neg =>
      rw [Bool.not_eq_true] at h2
      rw [on_webapp_data_agree_err products db from_user d now aid sendOk h1
        (Or.inl h2)] at hacc
      simp at hacc
    by_cases h3 : d.acceptRules = true
    case neg =>
      rw [Bool.not_eq_true] at h3
      rw [on_webapp_data_agree_err products db from_user d now aid sendOk h1
        (Or.inr h3)] at hacc
      simp at hacc
    by_cases h4 : pyStartswith (pyStrip (d.username.getD "")) "@" = true
    case neg =>
      rw [Bool.not_eq_true] at h4
      rw [on_webapp_data_username_err products db from_user d now aid sendOk
        h1 h2 h3 h4] at hacc
      simp at hacc
    by_cases h5 : (processItems products d.items).1 = []
    case pos =>
      rw [on_webapp_data_empty_err products db from_user d now aid sendOk
        h1 h2 h3 h4 h5] at hacc
      simp at hacc
    obtain ⟨rows, hs, hmap, hoid⟩ := on_webapp_data_success products db
      from_user d now aid sendOk h1 h2 h3 h4 h5
    rw [hs]
    have hinv := processItems_inv products d.items ([], 0, "UAH")
      (by simp) (by simp)
    refine ⟨orderRowOf db.nextOrderId
        (webUser from_user (pyStrip (d.username.getD "")))
        (processItems products d.items).2.1 (processItems products d.items).2.2
        (pyStrip (d.city.getD "")) (pyStrip (d.branch.getD ""))
        (pyStrip (d.receiver.getD "")) (pyStrip (d.phone.getD "")) now,
      rows, rfl, rfl, ?_, ?_⟩
    · show (processItems products d.items).2.1 =
        (rows.map (fun i => i.price * i.qty)).sum
      have hmm : rows.map (fun i => i.price * i.qty) =
          (processItems products d.items).1.map (fun x => x.2.2.1 * x.2.2.2) := by
        rw [← hmap, List.map_map]
        rfl
      rw [hmm]
      exact hinv.1
    · intro i hi
      have hmem : (i.product_sku, i.product_title, i.price, i.qty) ∈
          (processItems products d.items).1 := by
        rw [← hmap]
        exact List.mem_map_of_mem _ hi
      obtain ⟨p, hfind, ht, hp, hq⟩ := hinv.2 _ hmem
      exact ⟨p, hfind, ht, hp, hq⟩

/-- Witness for C1 on a concrete accepted checkout of two `device_1`. -/
theorem checkout_total_from_price_list_witness :
    ∃ (row : OrderRow) (rows : List OrderItem),
      (on_webapp_data sampleProducts sampleOrdersDb sampleUser
        (some sampleCheckout) 500 "4242" true).db.orders =
        sampleOrdersDb.orders ++ [row] ∧
      (on_webapp_data sampleProducts sampleOrdersDb sampleUser
        (some sampleCheckout) 500 "4242" true).db.order_items =
        sampleOrdersDb.order_items ++ rows ∧
      row.total = (rows.map (fun i => i.price * i.qty)).sum ∧
      ∀ i ∈ rows, ∃ p,
        sampleProducts.find? (fun q => q.sku == i.product_sku) = some p ∧
        i.product_title = p.title ∧ i.price = p.price ∧ 0 < i.qty := by
  exact checkout_total_from_price_list sampleProducts sampleOrdersDb sampleUser
    (some sampleCheckout) 500 "4242" true (by decide)

/-- C6: the order-intake flow validates before writing: an unparseable
payload, a non-`checkout` type, missing 18+/rules consent, a username not
starting with `@`, or a cart in which every item is dropped (sku not in
the `products` table, or non-positive qty) each produce exactly one error
reply while the orders database — both `orders` and `order_items` — stays
untouched and no notification happens. -/
theorem order_intake_validates_before_write (products : List Product)
    (db : OrdersDb) (from_user : UserInfo) (now : Int) (aid : String)
    (sendOk : Bool) :
    (on_webapp_data products db from_user none now aid sendOk =
      ⟨db, ["Не вдалося прочитати дані з вітрини."], none, none⟩) ∧
    (∀ d : CheckoutData, ¬ d.type = some "checkout" →
      on_webapp_data products db from_user (some d) now aid sendOk =
        ⟨db, ["Отримано дані вітрини, але тип невідомий."], none, none⟩) ∧
    (∀ d : CheckoutData, d.type = some "checkout" →
      (d.agree18 = false ∨ d.acceptRules = false) →
      on_webapp_data products db from_user (some d) now aid sendOk =
        ⟨db, ["Потрібно підтвердити 18+ і правила."], none, none⟩) ∧
    (∀ d : CheckoutData, d.type = some "checkout" → d.agree18 = true →
      d.acceptRules = true →
      pyStartswith (pyStrip (d.username.getD "")) "@" = false →
      on_webapp_data products db from_user (some d) now aid sendOk =
        ⟨db, ["Вкажіть ваш нік у Telegram (починається з @)."], none, none⟩) ∧
    (∀ d : CheckoutData, d.type = some "checkout" → d.agree18 = true →
      d.acceptRules = true →
      pyStartswith (pyStrip (d.username.getD "")) "@" = true →
      (∀ it ∈ d.items,
        products.find? (fun p => p.sku == itemSku it) = none ∨ itemQty it ≤ 0) →
      on_webapp_data products db from_user (some d) now aid sendOk =
        ⟨db, ["Корзина порожня."], none, none⟩) := by
  refine ⟨on_webapp_data_parse_err products db from_user now aid sendOk,
    ?_, ?_, ?_, ?_⟩
  · intro d h1
    exact on_webapp_data_type_err products db from_user d now aid sendOk h1
  · intro d h1 h2
    exact on_webapp_data_agree_err products db from_user d now aid sendOk h1 h2
  · intro d h1 h2 h3 h4
    exact on_webapp_data_username_err products db from_user d now aid sendOk
      h1 h2 h3 h4
  · intro d h1 h2 h3 h4 hdrop
    refine on_webapp_data_empty_err products db from_user d now aid sendOk
      h1 h2 h3 h4 ?_
    have := processItems_dropped products d.items hdrop ([], 0, "UAH")
    simp only [processItems, this]

/-- Witness for C6: a payload of type `checkout` without consent is
refused on the sample data, and an unknown-sku cart is refused as empty. -/
theorem order_intake_validates_before_write_witness :
    (on_webapp_data sampleProducts sampleOrdersDb sampleUser
      (some ⟨some "checkout", [⟨some "device_1", some 1⟩], none, none, none,
        none, some "@nick", false, true⟩) 500 "4242" true =
      ⟨sampleOrdersDb, ["Потрібно підтвердити 18+ і правила."], none, none⟩) ∧
    (on_webapp_data sampleProducts sampleOrdersDb sampleUser
      (some ⟨some "checkout", [⟨some "nope", some 1⟩], none, none, none,
        none, some "@nick", true, true⟩) 500 "4242" true =
      ⟨sampleOrdersDb, ["Корзина порожня."], none, none⟩) := by
  constructor
  · exact (order_intake_validates_before_write sampleProducts sampleOrdersDb
      sampleUser 500 "4242" true).2.2.1 _ (by decide) (Or.inl (by decide))
  · exact (order_intake_validates_before_write sampleProducts sampleOrdersDb
      sampleUser 500 "4242" true).2.2.2.2 _ (by decide) (by decide) (by decide)
      (by decide) (by decide)

/-- When a bot update handler returns the same effects for both delivery
outcomes, the delivery flag is immaterial to database, replies and
notification text; an unchanged database moreover settles the
confirmation clause vacuously. -/
theorem botEffects_const_case (f : Bool → BotEffects) (db : OrdersDb)
    (c : BotEffects) (hc : ∀ sendOk, f sendOk = c) (hdb : c.db = db) :
    (f false).db = (f true).db ∧ (f false).replies = (f true).replies ∧
    (f false).notifyCalled = (f true).notifyCalled ∧
    (∀ sendOk, ¬ (f sendOk).db.orders.length = db.orders.length →
      (f sendOk).replies = [confirm_msg db.nextOrderId]) := by
  refine ⟨by rw [hc, hc], by rw [hc, hc], by rw [hc, hc], ?_⟩
  intro sendOk h
  rw [hc, hdb] at h
  simp at h

/-- C7: a failed operator notification never fails the checkout: the
database written, the customer-facing replies and the text handed to
`notify_admin` are identical whether the send succeeds (`true`) or raises
and is swallowed (`false`); and whenever an order was written the customer
still receives exactly the confirmation reply for the new order. -/
theorem notify_failure_isolated (products : List Product) (db : OrdersDb)
    (from_user : UserInfo) (payload : Option CheckoutData) (now : Int)
    (aid : String) :
    ((on_webapp_data products db from_user payload now aid false).db =
      (on_webapp_data products db from_user payload now aid true).db) ∧
    ((on_webapp_data products db from_user payload now aid false).replies =
      (on_webapp_data products db from_user payload now aid true).replies) ∧
    ((on_webapp_data products db from_user payload now aid false).notifyCalled =
      (on_webapp_data products db from_user payload now aid true).notifyCalled) ∧
    (∀ sendOk, ¬ (on_webapp_data products db from_user payload now aid
        sendOk).db.orders.length = db.orders.length →
      (on_webapp_data products db from_user payload now aid sendOk).replies =
        [confirm_msg db.nextOrderId]) := by
  cases payload with
  | none =>
    exact botEffects_const_case _ db _
      (fun s => on_webapp_data_parse_err products db from_user now aid s) rfl
  | some d =>
    by_cases h1 : d.type = some "checkout"
    case neg =>
      exact botEffects_const_case _ db _
        (fun s => on_webapp_data_type_err products db from_user d now aid s h1) rfl
    by_cases h2 : d.agree18 = true
    case neg =>
      rw [Bool.not_eq_true] at h2
      exact botEffects_const_case _ db _
        (fun s => on_webapp_data_agree_err products db from_user d now aid s h1
          (Or.inl h2)) rfl
    by_cases h3 : d.acceptRules = true
    case neg =>
      rw [Bool.not_eq_true] at h3
      exact botEffects_const_case _ db _
        (fun s => on_webapp_data_agree_err products db from_user d now aid s h1
          (Or.inr h3)) rfl
    by_cases h4 : pyStartswith (pyStrip (d.username.getD "")) "@" = true
    case neg =>
      rw [Bool.not_eq_true] at h4
      exact botEffects_const_case _ db _
        (fun s => on_webapp_data_username_err products db from_user d now aid s
          h1 h2 h3 h4) rfl
    by_cases h5 : (processItems products d.items).1 = []
    case pos =>
      exact botEffects_const_case _ db _
        (fun s => on_webapp_data_empty_err products db from_user d now aid s
          h1 h2 h3 h4 h5) rfl
    obtain ⟨rows, hs, -, -⟩ := save_order_none_eq db
      (webUser from_user (pyStrip (d.username.getD "")))
      (processItems products d.items).1 (processItems products d.items).2.1
      (processItems products d.items).2.2 (pyStrip (d.city.getD ""))
      (pyStrip (d.branch.getD "")) (pyStrip (d.receiver.getD ""))
      (pyStrip (d.phone.getD "")) now
    have hunf : ∀ sendOk,
        on_webapp_data products db from_user (some d) now aid sendOk =
        ⟨⟨db.orders ++ [orderRowOf db.nextOrderId
              (webUser from_user (pyStrip (d.username.getD "")))
              (processItems products d.items).2.1
              (processItems products d.items).2.2 (pyStrip (d.city.getD ""))
              (pyStrip (d.branch.getD "")) (pyStrip (d.receiver.getD ""))
              (pyStrip (d.phone.getD "")) now],
          db.order_items ++ rows, db.nextOrderId + 1,
          db.nextItemId + rows.length⟩,
         [confirm_msg db.nextOrderId],
         some (admin_msg db.nextOrderId (pyStrip (d.receiver.getD ""))
           (pyStrip (d.phone.getD ""))
           (webUser from_user (pyStrip (d.username.getD "")))
           (processItems products d.items).1 (processItems products d.items).2.1
           (processItems products d.items).2.2 (pyStrip (d.city.getD ""))
           (pyStrip (d.branch.getD ""))),
         notify_admin aid sendOk
           (admin_msg db.nextOrderId (pyStrip (d.receiver.getD ""))
             (pyStrip (d.phone.getD ""))
             (webUser from_user (pyStrip (d.username.getD "")))
             (processItems products d.items).1
             (processItems products d.items).2.1
             (processItems products d.items).2.2 (pyStrip (d.city.getD ""))
             (pyStrip (d.branch.getD "")))⟩ := by
      intro sendOk
      simp only [on_webapp_data]
      rw [if_neg (not_not_intro h1), if_neg (by simp [h2, h3]),
        if_neg (by simp [h4]), if_neg h5]
      rw [hs]
    refine ⟨by rw [hunf, hunf], by rw [hunf, hunf], by rw [hunf, hunf], ?_⟩
    intro sendOk h
    rw [hunf]

/-- Witness for C7: on the sample accepted checkout, a failed and a
successful notification produce the same database and the same customer
confirmation. -/
theorem notify_failure_isolated_witness :
    ((on_webapp_data sampleProducts sampleOrdersDb sampleUser
        (some sampleCheckout) 500 "4242" false).db =
      (on_webapp_data sampleProducts sampleOrdersDb sampleUser
        (some sampleCheckout) 500 "4242" true).db) ∧
    (on_webapp_data sampleProducts sampleOrdersDb sampleUser
        (some sampleCheckout) 500 "4242" false).replies =
      [confirm_msg sampleOrdersDb.nextOrderId] := by
  have h := notify_failure_isolated sampleProducts sampleOrdersDb sampleUser
    (some sampleCheckout) 500 "4242"
  exact ⟨h.1, h.2.2.2 false (by decide)⟩

/-- C4: the operator notification pipeline: `ADMIN_ID_RUNTIME` starts as
`ADMIN_CHAT_ID` and after any `/setadmin` history equals the chat id of
the last issuer; `notify_admin` sends nothing when the runtime id is
empty or not all digits, and otherwise delivers the text to the parsed
chat id; and every checkout accepted by `on_webapp_data` hands
`notify_admin` an order summary opening with the new order's number,
whose delivery outcome is exactly `notify_admin`'s. -/
theorem admin_notification_spec (ADMIN_CHAT_ID : String) :
    (adminIdAfter ADMIN_CHAT_ID [] = ADMIN_CHAT_ID) ∧
    (∀ (chats : List Int) (c : Int),
      adminIdAfter ADMIN_CHAT_ID (chats ++ [c]) = intToStr c) ∧
    (∀ (aid text : String) (sendOk : Bool),
      (aid = "" ∨ pyIsDigit aid = false) → notify_admin aid sendOk text = none) ∧
    (∀ aid text : String, ¬ aid = "" → pyIsDigit aid = true →
      notify_admin aid true text = some (pyInt aid, text)) ∧
    (∀ (products : List Product) (db : OrdersDb) (from_user : UserInfo)
        (d : CheckoutData) (now : Int) (aid : String) (sendOk : Bool),
      d.type = some "checkout" → d.agree18 = true → d.acceptRules = true →
      pyStartswith (pyStrip (d.username.getD "")) "@" = true →
      ¬ (processItems products d.items).1 = [] →
      ∃ msg, (on_webapp_data products db from_user (some d) now aid
          sendOk).notifyCalled = some msg ∧
        (on_webapp_data products db from_user (some d) now aid
          sendOk).adminSent = notify_admin aid sendOk msg ∧
        pyStartswith msg ("🆕 <b>Замовлення #" ++ natToStr db.nextOrderId) = true) := by
  refine ⟨rfl, ?_, ?_, ?_, ?_⟩
  · intro chats c
    simp [adminIdAfter, cmd_setadmin]
  · intro aid text sendOk h
    rcases h with h | h
    · simp [notify_admin, h]
    · simp [notify_admin, h]
  · intro aid text h1 h2
    simp [notify_admin, h1, h2]
  · intro products db from_user d now aid sendOk h1 h2 h3 h4 h5
    obtain ⟨rows, hs, -, -⟩ := on_webapp_data_success products db from_user d
      now aid sendOk h1 h2 h3 h4 h5
    rw [hs]
    refine ⟨_, rfl, rfl, ?_⟩
    unfold admin_msg
    iterate 23 apply pyStartswith_append_left
    exact pyStartswith_self _

/-- Witness for C4: an invalid (negative, hence non-digit) runtime id
sends nothing; a valid one delivers; the sample checkout hands
`notify_admin` the summary for order number 2. -/
theorem admin_notification_spec_witness :
    (adminIdAfter "chat0" [] = "chat0") ∧
    (adminIdAfter "chat0" ([] ++ [(-100 : Int)]) = "-100") ∧
    (notify_admin "-100" true "hi" = none) ∧
    (notify_admin "4242" true "hi" = some (pyInt "4242", "hi")) ∧
    (∃ msg, (on_webapp_data sampleProducts sampleOrdersDb sampleUser
        (some sampleCheckout) 500 "4242" true).notifyCalled = some msg ∧
      (on_webapp_data sampleProducts sampleOrdersDb sampleUser
        (some sampleCheckout) 500 "4242" true).adminSent =
        notify_admin "4242" true msg ∧
      pyStartswith msg ("🆕 <b>Замовлення #" ++ natToStr
        sampleOrdersDb.nextOrderId) = true) := by
  have h := admin_notification_spec "chat0"
  refine ⟨h.1, h.2.1 [] (-100), h.2.2.1 "-100" "hi" true (Or.inr (by decide)),
    h.2.2.2.1 "4242" "hi" (by decide) (by decide), ?_⟩
  exact h.2.2.2.2 sampleProducts sampleOrdersDb sampleUser sampleCheckout 500
    "4242" true (by decide) (by decide) (by decide) (by decide) (by decide)
